import Mathlib

/-!
Verification of the `ml_retrain_pipeline` DAG (src/dags/ml_retrain_pipeline.py).

Shallow embedding conventions:
* Python floats are modelled as exact rationals (`ℚ`); `round(x, 4)` is
  modelled by `round4`, rounding to 4 decimal digits (half up).  All concrete
  inputs used in counterexamples are kept well away from rounding ties, so the
  exact tie-breaking mode of Python's `round` is irrelevant to the results.
* The metrics dictionary pushed to XCom is a string-keyed association list of
  rationals; `dict.get(k, d)` is `dictGetD`.
* `random.uniform(a, b)` outcomes are passed in explicitly via `EvalEnv`.
* Environment configuration (`MODEL_VERSION`, `TELEGRAM_TOKEN`,
  `TELEGRAM_CHAT_ID`) is a `Config` record; the two credentials are `Option`s
  (Python `os.getenv` returns `None` when unset) and Python truthiness of a
  possibly-missing string is `strFalsy`.
* The XCom store holds the two keys actually used by the DAG
  (`metrics`, `deploy_info`).
* The HTTP POST of the notifier is modelled by an oracle
  `post : PostRequest → HttpOutcome`; a transport exception is the
  `HttpOutcome.exn` case, and the `try`/`except` of the source is the match on
  that outcome.  Totality of `send_telegram_notification` models the fact that
  every raise point in its body is caught.
* The Airflow scheduling of the DAG (branch activation and the
  `none_failed_min_one_success` trigger rule) is embedded in `run_pipeline`,
  following the dependency wiring of lines 226-229 of the source and the
  trigger-rule semantics stated in the spec's glossary: run only if no
  predecessor failed and at least one succeeded, skipped predecessors not
  counting as failed.  No task body in this DAG can fail, so task states are
  just `success`/`skipped`.
-/

/-- `round(x, 4)`: rounding to 4 decimal digits. -/
def round4 (x : ℚ) : ℚ := (⌊x * 10000 + 1/2⌋ : ℚ) / 10000

/-- The metrics dictionary: a string-keyed map of rationals. -/
abbrev MetricsDict := List (String × ℚ)

/-- Python `d[k]` / `d.get(k)` lookup. -/
def dictGet (d : MetricsDict) (k : String) : Option ℚ :=
  (d.find? (fun p => p.1 == k)).map Prod.snd

/-- Python `d.get(k, default)`. -/
def dictGetD (d : MetricsDict) (k : String) (default : ℚ) : ℚ :=
  (dictGet d k).getD default

/-- `ACCURACY_THRESHOLD = 0.8` (line 17). -/
def ACCURACY_THRESHOLD : ℚ := 0.8

/-- Environment configuration read at module load (lines 12-14). -/
structure Config where
  model_version : String := "v1.0.0"
  telegram_token : Option String := none
  telegram_chat_id : Option String := none
deriving DecidableEq

/-- Python truthiness of `os.getenv` results: `not x` is true when the
variable is unset (`None`) or set to the empty string. -/
def strFalsy : Option String → Bool
  | none => true
  | some s => s.isEmpty

/-- The outcomes of the `random.uniform` calls in `evaluate_model`
(lines 41-43). -/
structure EvalEnv where
  accuracy_raw : ℚ
  precision_raw : ℚ
  recall_raw : ℚ
deriving DecidableEq

/-- `evaluate_model` (lines 39-58): the metrics dictionary it builds.
`f1_score` is computed from the raw samples (line 44) and rounded afterwards
(line 50); `accuracy`, `precision`, `recall` are the rounded samples. -/
def evaluate_model (env : EvalEnv) : MetricsDict :=
  let f1_score := 2 * (env.precision_raw * env.recall_raw) /
    (env.precision_raw + env.recall_raw)
  [("accuracy", round4 env.accuracy_raw),
   ("precision", round4 env.precision_raw),
   ("recall", round4 env.recall_raw),
   ("f1_score", round4 f1_score)]

/-- `check_metrics` (lines 61-74), applied to the pulled metrics dictionary:
`accuracy = metrics.get('accuracy', 0)`, then branch on
`accuracy >= ACCURACY_THRESHOLD`. -/
def check_metrics (metrics : MetricsDict) : String :=
  let accuracy := dictGetD metrics "accuracy" 0
  if accuracy ≥ ACCURACY_THRESHOLD then "deploy_model" else "skip_deploy"

/-- The value pushed under key `deploy_info` (lines 88-92). -/
structure DeployInfo where
  version : String
  metrics : MetricsDict
  timestamp : String
deriving DecidableEq

/-- The run-scoped XCom store, restricted to the two keys this DAG uses. -/
structure XComStore where
  metrics : Option MetricsDict := none
  deploy_info : Option DeployInfo := none
deriving DecidableEq

/-- The XCom side effect of `evaluate_model` (line 56): push the metrics
dictionary under key `metrics`. -/
def evaluate_model_task (env : EvalEnv) (store : XComStore) : XComStore :=
  { store with metrics := some (evaluate_model env) }

/-- `check_metrics` as a task over the store (lines 61-74): pull the metrics
dictionary (`none` models the unrecoverable absence of the record) and return
the branch identifier; the store is not written. -/
def check_metrics_task (store : XComStore) : Option String × XComStore :=
  (store.metrics.map check_metrics, store)

/-- `deploy_model` (lines 77-94): push
`{version, metrics, timestamp}` under key `deploy_info`.  `now` is the
`datetime.now().isoformat()` value. -/
def deploy_model (cfg : Config) (metrics : MetricsDict) (now : String)
    (store : XComStore) : XComStore :=
  { store with deploy_info := some ⟨cfg.model_version, metrics, now⟩ }

/-- `skip_deploy` (lines 97-108): logs only; the store is unchanged. -/
def skip_deploy (store : XComStore) : XComStore := store

/-- One HTTP POST request as built on lines 139-147. -/
structure PostRequest where
  url : String
  chat_id : String
  text : String
  parse_mode : String
  timeout : Nat
deriving DecidableEq

/-- What the environment does with a POST: an HTTP response (status, body
text) or a transport exception. -/
inductive HttpOutcome where
  | response (status : Nat) (text : String)
  | exn (msg : String)
deriving DecidableEq

/-- The observable behaviour of one notifier run: the log lines printed and
the POST requests issued. -/
structure NotifyResult where
  logs : List String
  posts : List PostRequest
deriving DecidableEq

/-- `metrics.get(k, 'N/A')` as used in the message body (lines 130-133);
numeric rendering of a rational is abstracted by `toString`. -/
def metricField (d : MetricsDict) (k : String) : String :=
  match dictGet d k with
  | some v => toString v
  | none => "N/A"

/-- The Markdown message built on lines 127-136. -/
def telegramMessage (cfg : Config) (di : DeployInfo) : String :=
  "*[DEPLOY] Model " ++ cfg.model_version ++ "*\n\n" ++
  "Metrics:\n" ++
  "  - Accuracy: `" ++ metricField di.metrics "accuracy" ++ "`\n" ++
  "  - Precision: `" ++ metricField di.metrics "precision" ++ "`\n" ++
  "  - Recall: `" ++ metricField di.metrics "recall" ++ "`\n" ++
  "  - F1-score: `" ++ metricField di.metrics "f1_score" ++ "`\n\n" ++
  "Timestamp: " ++ di.timestamp ++ "\n" ++
  "Status: OK"

/-- The request assembled on lines 139-147: the bot URL embedding the token,
the JSON payload `{chat_id, text, parse_mode}`, and `timeout=10`. -/
def buildRequest (cfg : Config) (di : DeployInfo) : PostRequest :=
  { url := "https://api.telegram.org/bot" ++
      cfg.telegram_token.getD "" ++ "/sendMessage",
    chat_id := cfg.telegram_chat_id.getD "",
    text := telegramMessage cfg di,
    parse_mode := "Markdown", timeout := 10 }

/-- `send_telegram_notification` (lines 111-153).  The three paths of the
source: no deploy info (lines 115-117), missing credentials (lines 119-122),
and the real send wrapped in `try`/`except` (lines 146-153).  The function is
total: it returns a `NotifyResult` on every path, which models the fact that
the notifier never propagates an exception. -/
def send_telegram_notification (cfg : Config) (store : XComStore)
    (post : PostRequest → HttpOutcome) : NotifyResult :=
  match store.deploy_info with
  | none =>
      { logs := ["Информация о деплое не найдена. Уведомление не отправлено."],
        posts := [] }
  | some deploy_info =>
      if strFalsy cfg.telegram_token || strFalsy cfg.telegram_chat_id then
        { logs := ["TELEGRAM_TOKEN или TELEGRAM_CHAT_ID не настроены",
                   "Уведомление (симуляция): Модель " ++ cfg.model_version ++
                     " успешно развернута!"],
          posts := [] }
      else
        let req := buildRequest cfg deploy_info
        match post req with
        | HttpOutcome.response status text =>
            if status = 200 then
              { logs := ["Уведомление успешно отправлено в Telegram"],
                posts := [req] }
            else
              { logs := ["Ошибка отправки уведомления: " ++ text],
                posts := [req] }
        | HttpOutcome.exn e =>
            { logs := ["Ошибка при отправке уведомления: " ++ e],
              posts := [req] }

/-- The Airflow state of a task instance after a run.  No task body in this
DAG can fail, so the only states reached are `success` and `skipped`. -/
inductive TaskState where
  | success
  | skipped
deriving DecidableEq

/-- The `none_failed_min_one_success` trigger rule (tasks `notify_success`
and `join`, lines 216 and 222), per the spec's glossary: run only if no
predecessor failed and at least one succeeded.  No predecessor can fail in
this DAG, so the rule reduces to "at least one upstream succeeded". -/
def trigger_nfmos (upstream : List TaskState) : Bool :=
  upstream.any (fun s => s == TaskState.success)

/-- The outcome of one scheduled DAG run. -/
structure PipelineRun where
  branch : String
  deploy_state : TaskState
  skip_state : TaskState
  notify_state : TaskState
  join_state : TaskState
  store : XComStore
  notify_result : Option NotifyResult
deriving DecidableEq

/-- One run of the DAG under the wiring of lines 226-229:
`train >> evaluate >> check`, `check >> deploy >> notify`,
`check >> skip >> join`, `notify >> join`.  The branch operator activates
the successor named by `check_metrics` and marks the sibling skipped; a task
whose trigger rule is unsatisfied is skipped and does not run its body. -/
def run_pipeline (cfg : Config) (env : EvalEnv) (now : String)
    (post : PostRequest → HttpOutcome) : PipelineRun :=
  let metrics := evaluate_model env
  let store1 : XComStore := { metrics := some metrics, deploy_info := none }
  let branch := check_metrics metrics
  let deploy_state := if branch = "deploy_model"
    then TaskState.success else TaskState.skipped
  let skip_state := if branch = "skip_deploy"
    then TaskState.success else TaskState.skipped
  let store2 := if branch = "deploy_model"
    then deploy_model cfg metrics now store1 else store1
  let store3 := if branch = "skip_deploy" then skip_deploy store2 else store2
  let notify_state := if trigger_nfmos [deploy_state]
    then TaskState.success else TaskState.skipped
  let notify_result := if notify_state = TaskState.success
    then some (send_telegram_notification cfg store3 post) else none
  let join_state := if trigger_nfmos [skip_state, notify_state]
    then TaskState.success else TaskState.skipped
  { branch := branch, deploy_state := deploy_state, skip_state := skip_state,
    notify_state := notify_state, join_state := join_state,
    store := store3, notify_result := notify_result }

/-- `x` is a value with at most 4 decimal digits. -/
def isRounded4 (x : ℚ) : Prop := ∃ k : ℤ, x = (k : ℚ) / 10000

/-- A concrete store with good metrics and no deploy info. -/
def sampleStoreNoDeploy : XComStore :=
  { metrics := some [("accuracy", 0.9)], deploy_info := none }

/-- A concrete store with the same metrics and some deploy info. -/
def sampleStoreWithDeploy : XComStore :=
  { metrics := some [("accuracy", 0.9)],
    deploy_info := some ⟨"v1.0.0", [], "2025-01-01"⟩ }

/-- A concrete deploy-info record used in concrete instantiations. -/
def sampleDeployInfo : DeployInfo :=
  ⟨"v1.0.0", [("accuracy", 0.9)], "2025-01-01T00:00:00"⟩

/-- A store holding `sampleDeployInfo` under `deploy_info`. -/
def sampleStoreDeployOnly : XComStore :=
  { metrics := none, deploy_info := some sampleDeployInfo }

/-- A configuration with both Telegram credentials set. -/
def sampleCfgWithCreds : Config :=
  { model_version := "v1.0.0", telegram_token := some "TOKEN",
    telegram_chat_id := some "CHAT" }

/-- An HTTP oracle that always answers with status 500. -/
def samplePost500 : PostRequest → HttpOutcome :=
  fun _ => HttpOutcome.response 500 "boom"

/-- An HTTP oracle that always raises a transport exception. -/
def samplePostExn : PostRequest → HttpOutcome :=
  fun _ => HttpOutcome.exn "connection refused"

/-- `random.uniform` outcomes driving the pipeline to the skip branch
(`accuracy = 0.76 < 0.8`). -/
def sampleEnvSkip : EvalEnv := ⟨0.76, 0.8, 0.8⟩

/-- `random.uniform` outcomes driving the pipeline to the deploy branch
(`accuracy = 0.92 ≥ 0.8`). -/
def sampleEnvDeploy : EvalEnv := ⟨0.92, 0.85, 0.88⟩

/-- The default configuration: default model version and no credentials. -/
def sampleCfgDefault : Config := {}

/-- The empty store. -/
def sampleStoreEmpty : XComStore := {}

lemma round4_isRounded4 (x : ℚ) : isRounded4 (round4 x) :=
  ⟨⌊x * 10000 + 1/2⌋, rfl⟩

lemma round4_mono {a b : ℚ} (h : a ≤ b) : round4 a ≤ round4 b := by
  unfold round4
  have hf : (⌊a * 10000 + 1/2⌋ : ℤ) ≤ ⌊b * 10000 + 1/2⌋ :=
    Int.floor_le_floor (by linarith)
  have hq : ((⌊a * 10000 + 1/2⌋ : ℤ) : ℚ) ≤ ((⌊b * 10000 + 1/2⌋ : ℤ) : ℚ) := by
    exact_mod_cast hf
  linarith

lemma evaluate_model_accuracy (env : EvalEnv) :
    dictGet (evaluate_model env) "accuracy" = some (round4 env.accuracy_raw) :=
  rfl

lemma evaluate_model_precision (env : EvalEnv) :
    dictGet (evaluate_model env) "precision" =
      some (round4 env.precision_raw) := rfl

lemma evaluate_model_recall (env : EvalEnv) :
    dictGet (evaluate_model env) "recall" = some (round4 env.recall_raw) := rfl

lemma check_metrics_of_accuracy (d : MetricsDict) (a : ℚ)
    (h : dictGet d "accuracy" = some a) :
    check_metrics d =
      if a ≥ ACCURACY_THRESHOLD then "deploy_model" else "skip_deploy" := by
  unfold check_metrics dictGetD
  rw [h]
  rfl

lemma run_pipeline_skip (cfg : Config) (env : EvalEnv) (now : String)
    (post : PostRequest → HttpOutcome)
    (h : check_metrics (evaluate_model env) = "skip_deploy") :
    run_pipeline cfg env now post =
      { branch := "skip_deploy", deploy_state := TaskState.skipped,
        skip_state := TaskState.success, notify_state := TaskState.skipped,
        join_state := TaskState.success,
        store := { metrics := some (evaluate_model env), deploy_info := none },
        notify_result := none } := by
  simp [run_pipeline, h, skip_deploy, trigger_nfmos]

lemma run_pipeline_deploy (cfg : Config) (env : EvalEnv) (now : String)
    (post : PostRequest → HttpOutcome)
    (h : check_metrics (evaluate_model env) = "deploy_model") :
    run_pipeline cfg env now post =
      { branch := "deploy_model", deploy_state := TaskState.success,
        skip_state := TaskState.skipped, notify_state := TaskState.success,
        join_state := TaskState.success,
        store := { metrics := some (evaluate_model env),
                   deploy_info := some ⟨cfg.model_version,
                     evaluate_model env, now⟩ },
        notify_result := some (send_telegram_notification cfg
          { metrics := some (evaluate_model env),
            deploy_info := some ⟨cfg.model_version,
              evaluate_model env, now⟩ } post) } := by
  simp [run_pipeline, h, deploy_model, trigger_nfmos]

/-- C1 counterexample.  The claim publishes
`round4 (2 * round4 p * round4 r / (round4 p + round4 r))`.  At the raw
samples `p = 0.700049`, `r = 0.720149` (both inside the documented sampling
ranges), `evaluate_model` publishes `f1_score = 0.71` — computed from the raw
samples — while the claim's formula yields `0.7099`.  All quantities involved
are at least `0.01` decimal units away from a rounding tie, so the result
does not depend on the tie-breaking mode of Python's `round`. -/
theorem f1_uses_raw_samples_cex :
    ((0.70 : ℚ) ≤ 0.700049 ∧ (0.700049 : ℚ) ≤ 0.92 ∧
     (0.72 : ℚ) ≤ 0.720149 ∧ (0.720149 : ℚ) ≤ 0.94) ∧
    dictGet (evaluate_model ⟨0.76, 0.700049, 0.720149⟩) "f1_score" =
      some 0.71 ∧
    round4 (2 * round4 (0.700049 : ℚ) * round4 (0.720149 : ℚ) /
      (round4 (0.700049 : ℚ) + round4 (0.720149 : ℚ))) = 0.7099 ∧
    (0.71 : ℚ) ≠ 0.7099 := by
  refine ⟨by norm_num, ?_, by norm_num [round4], by norm_num⟩
  have h : dictGet (evaluate_model ⟨0.76, 0.700049, 0.720149⟩) "f1_score" =
      some (round4 (2 * ((0.700049 : ℚ) * 0.720149) /
        (0.700049 + 0.720149))) := rfl
  rw [h]
  norm_num [round4]

/-- C1, amended: the Evaluator computes `f1_score` from the *raw* precision
and recall samples (line 44 of the source, before any rounding) by the
harmonic-mean formula, and only the result is rounded to 4 decimal digits;
in general this differs from computing the harmonic mean of the already
rounded precision and recall. -/
theorem f1_published_equals_round4_of_raw (env : EvalEnv) :
    dictGet (evaluate_model env) "f1_score" =
      some (round4 (2 * (env.precision_raw * env.recall_raw) /
        (env.precision_raw + env.recall_raw))) := rfl

/-- C2: whenever the pulled metrics dictionary carries an `accuracy` value
`a`, `check_metrics` returns `deploy_model` when `a ≥ ACCURACY_THRESHOLD`
and `skip_deploy` when `a < ACCURACY_THRESHOLD`, where the threshold
constant is `0.8`; in particular the comparison is `≥`, so the boundary
`a = 0.8` selects `deploy_model`. -/
theorem gate_threshold_decision (d : MetricsDict) (a : ℚ)
    (h : dictGet d "accuracy" = some a) :
    (a ≥ ACCURACY_THRESHOLD → check_metrics d = "deploy_model") ∧
    (a < ACCURACY_THRESHOLD → check_metrics d = "skip_deploy") ∧
    ACCURACY_THRESHOLD = 0.8 := by
  rw [check_metrics_of_accuracy d a h]
  refine ⟨fun hge => if_pos hge, fun hlt => if_neg (by linarith), rfl⟩

/-- Witness for C2 at the boundary input `accuracy = 0.8`. -/
theorem gate_threshold_decision_witness :
    check_metrics [("accuracy", 0.8)] = "deploy_model" :=
  (gate_threshold_decision [("accuracy", 0.8)] 0.8 rfl).1 le_rfl

/-- C9: the Gate is a pure function of the metrics record and the threshold
constant.  Two stores agreeing on the `metrics` key produce the same branch
identifier regardless of any other state, and the task leaves the store
untouched. -/
theorem gate_pure_function (s1 s2 : XComStore) (h : s1.metrics = s2.metrics) :
    (check_metrics_task s1).1 = (check_metrics_task s2).1 ∧
    (check_metrics_task s1).2 = s1 ∧ (check_metrics_task s2).2 = s2 := by
  refine ⟨?_, rfl, rfl⟩
  simp [check_metrics_task, h]

/-- Witness for C9: two stores with equal metrics but different
`deploy_info` contents yield the same gate output, and both stores are left
unchanged. -/
theorem gate_pure_function_witness :
    (check_metrics_task sampleStoreNoDeploy).1 =
      (check_metrics_task sampleStoreWithDeploy).1 ∧
    (check_metrics_task sampleStoreNoDeploy).2 = sampleStoreNoDeploy ∧
    (check_metrics_task sampleStoreWithDeploy).2 = sampleStoreWithDeploy :=
  gate_pure_function sampleStoreNoDeploy sampleStoreWithDeploy rfl

/-- C10: when the metrics dictionary exists but has no `accuracy` key, the
defaulting lookup `metrics.get('accuracy', 0)` yields `0`, so the Gate
returns `skip_deploy` instead of raising (`check_metrics` is total on such
dictionaries). -/
theorem gate_missing_accuracy_defaults_to_zero (d : MetricsDict)
    (h : dictGet d "accuracy" = none) :
    dictGetD d "accuracy" 0 = 0 ∧ check_metrics d = "skip_deploy" := by
  have hd : dictGetD d "accuracy" 0 = 0 := by simp [dictGetD, h]
  refine ⟨hd, ?_⟩
  unfold check_metrics
  rw [hd]
  norm_num [ACCURACY_THRESHOLD]

/-- Witness for C10 on a dictionary with a `precision` entry but no
`accuracy` entry. -/
theorem gate_missing_accuracy_defaults_to_zero_witness :
    dictGetD [("precision", 0.9)] "accuracy" 0 = 0 ∧
    check_metrics [("precision", 0.9)] = "skip_deploy" :=
  gate_missing_accuracy_defaults_to_zero [("precision", 0.9)] rfl

lemma check_metrics_sampleEnvSkip :
    check_metrics (evaluate_model sampleEnvSkip) = "skip_deploy" := by
  have h : check_metrics (evaluate_model sampleEnvSkip) =
      if round4 0.76 ≥ ACCURACY_THRESHOLD
      then "deploy_model" else "skip_deploy" := rfl
  rw [h]
  norm_num [round4, ACCURACY_THRESHOLD]

lemma check_metrics_sampleEnvDeploy :
    check_metrics (evaluate_model sampleEnvDeploy) = "deploy_model" := by
  have h : check_metrics (evaluate_model sampleEnvDeploy) =
      if round4 0.92 ≥ ACCURACY_THRESHOLD
      then "deploy_model" else "skip_deploy" := rfl
  rw [h]
  norm_num [round4, ACCURACY_THRESHOLD]

/-- C3 counterexample.  On a run whose accuracy sample is `0.76`, the Gate
selects `skip_deploy`, so `deploy_model` — the *only* upstream of
`notify_success` in the wiring `check >> deploy >> notify` — is skipped.
The `none_failed_min_one_success` trigger rule then leaves `notify_success`
skipped (no upstream succeeded), so the Notifier does not execute and logs
nothing, contradicting the claim that it logs the "no deployment info"
message on the skip path; the Join still succeeds via the Skipper. -/
theorem notifier_runs_on_skip_path_cex :
    (run_pipeline sampleCfgDefault sampleEnvSkip "2025-01-01T00:00:00"
      samplePostExn).branch = "skip_deploy" ∧
    (run_pipeline sampleCfgDefault sampleEnvSkip "2025-01-01T00:00:00"
      samplePostExn).notify_state = TaskState.skipped ∧
    (run_pipeline sampleCfgDefault sampleEnvSkip "2025-01-01T00:00:00"
      samplePostExn).notify_result = none ∧
    (run_pipeline sampleCfgDefault sampleEnvSkip "2025-01-01T00:00:00"
      samplePostExn).join_state = TaskState.success := by
  rw [run_pipeline_skip _ _ _ _ check_metrics_sampleEnvSkip]
  exact ⟨rfl, rfl, rfl, rfl⟩

/-- C3, amended: on the skip path the Notifier does not run at all — it is
marked skipped, because its only upstream task `deploy_model` was skipped
and its `none_failed_min_one_success` trigger rule requires at least one
successful upstream — so no "no deployment info" message is logged; the
Join nevertheless succeeds because the Skipper succeeded. -/
theorem notifier_skipped_on_skip_path (cfg : Config) (env : EvalEnv)
    (now : String) (post : PostRequest → HttpOutcome)
    (h : check_metrics (evaluate_model env) = "skip_deploy") :
    (run_pipeline cfg env now post).notify_state = TaskState.skipped ∧
    (run_pipeline cfg env now post).notify_result = none ∧
    (run_pipeline cfg env now post).skip_state = TaskState.success ∧
    (run_pipeline cfg env now post).join_state = TaskState.success := by
  rw [run_pipeline_skip cfg env now post h]
  exact ⟨rfl, rfl, rfl, rfl⟩

/-- Witness for the amended C3 on the concrete skip-branch run. -/
theorem notifier_skipped_on_skip_path_witness :
    (run_pipeline sampleCfgWithCreds sampleEnvSkip "2025-01-01T00:00:00"
      samplePost500).notify_state = TaskState.skipped ∧
    (run_pipeline sampleCfgWithCreds sampleEnvSkip "2025-01-01T00:00:00"
      samplePost500).notify_result = none ∧
    (run_pipeline sampleCfgWithCreds sampleEnvSkip "2025-01-01T00:00:00"
      samplePost500).skip_state = TaskState.success ∧
    (run_pipeline sampleCfgWithCreds sampleEnvSkip "2025-01-01T00:00:00"
      samplePost500).join_state = TaskState.success :=
  notifier_skipped_on_skip_path sampleCfgWithCreds sampleEnvSkip
    "2025-01-01T00:00:00" samplePost500 check_metrics_sampleEnvSkip

/-- C4: on any store with no value under `deploy_info`, the Notifier prints
exactly the "no deployment info" log line and returns normally (the
function is total, so no exception propagates) having issued no HTTP
request. -/
theorem notifier_absent_deploy_info (cfg : Config) (store : XComStore)
    (post : PostRequest → HttpOutcome) (h : store.deploy_info = none) :
    send_telegram_notification cfg store post =
      { logs := ["Информация о деплое не найдена. Уведомление не отправлено."],
        posts := [] } := by
  unfold send_telegram_notification
  rw [h]

/-- Witness for C4 on the empty store, with an oracle that would raise if it
were ever contacted. -/
theorem notifier_absent_deploy_info_witness :
    send_telegram_notification sampleCfgDefault sampleStoreEmpty
      samplePostExn =
      { logs := ["Информация о деплое не найдена. Уведомление не отправлено."],
        posts := [] } :=
  notifier_absent_deploy_info sampleCfgDefault sampleStoreEmpty
    samplePostExn rfl

/-- C5: when `deploy_info` is present but at least one of the credentials is
falsy (unset or empty — Python truthiness of `os.getenv`), the Notifier
prints the simulated-notification lines and returns normally with no HTTP
request issued. -/
theorem notifier_unset_credentials (cfg : Config) (store : XComStore)
    (post : PostRequest → HttpOutcome) (di : DeployInfo)
    (hdi : store.deploy_info = some di)
    (hcred : strFalsy cfg.telegram_token = true ∨
      strFalsy cfg.telegram_chat_id = true) :
    send_telegram_notification cfg store post =
      { logs := ["TELEGRAM_TOKEN или TELEGRAM_CHAT_ID не настроены",
                 "Уведомление (симуляция): Модель " ++ cfg.model_version ++
                   " успешно развернута!"],
        posts := [] } := by
  have hc : (strFalsy cfg.telegram_token ||
      strFalsy cfg.telegram_chat_id) = true := by
    rcases hcred with h | h <;> simp [h]
  unfold send_telegram_notification
  rw [hdi]
  simp only [hc, if_pos]

/-- Witness for C5: deploy info present, both credentials unset. -/
theorem notifier_unset_credentials_witness :
    send_telegram_notification sampleCfgDefault sampleStoreDeployOnly
      samplePost500 =
      { logs := ["TELEGRAM_TOKEN или TELEGRAM_CHAT_ID не настроены",
                 "Уведомление (симуляция): Модель v1.0.0 успешно развернута!"],
        posts := [] } :=
  notifier_unset_credentials sampleCfgDefault sampleStoreDeployOnly
    samplePost500 sampleDeployInfo rfl (Or.inl rfl)

/-- C6: with `deploy_info` present and both credentials set, the Notifier
issues exactly one POST — the request of `buildRequest`, whose timeout is
10 — and both failure modes of that POST are caught and logged: a non-200
response logs the response text, a transport exception logs the exception
message, and in each case the function returns normally (it is total, so
the failure never propagates). -/
theorem notifier_single_post_catches_failures (cfg : Config)
    (store : XComStore) (post : PostRequest → HttpOutcome) (di : DeployInfo)
    (hdi : store.deploy_info = some di)
    (htok : strFalsy cfg.telegram_token = false)
    (hchat : strFalsy cfg.telegram_chat_id = false) :
    (send_telegram_notification cfg store post).posts =
      [buildRequest cfg di] ∧
    (buildRequest cfg di).timeout = 10 ∧
    (∀ s t, post (buildRequest cfg di) = HttpOutcome.response s t →
      s ≠ 200 → (send_telegram_notification cfg store post).logs =
        ["Ошибка отправки уведомления: " ++ t]) ∧
    (∀ e, post (buildRequest cfg di) = HttpOutcome.exn e →
      (send_telegram_notification cfg store post).logs =
        ["Ошибка при отправке уведомления: " ++ e]) := by
  have hc : (strFalsy cfg.telegram_token ||
      strFalsy cfg.telegram_chat_id) = false := by
    rw [htok, hchat]
    rfl
  have hsend : send_telegram_notification cfg store post =
      match post (buildRequest cfg di) with
      | HttpOutcome.response status text =>
          if status = 200 then
            { logs := ["Уведомление успешно отправлено в Telegram"],
              posts := [buildRequest cfg di] }
          else
            { logs := ["Ошибка отправки уведомления: " ++ text],
              posts := [buildRequest cfg di] }
      | HttpOutcome.exn e =>
          { logs := ["Ошибка при отправке уведомления: " ++ e],
            posts := [buildRequest cfg di] } := by
    unfold send_telegram_notification
    rw [hdi]
    simp only [hc, Bool.false_eq_true, if_false]
  refine ⟨?_, rfl, ?_, ?_⟩
  · rw [hsend]
    rcases hp : post (buildRequest cfg di) with ⟨s, t⟩ | e
    · by_cases hs : s = 200 <;> simp [hs]
    · rfl
  · intro s t hp hne
    rw [hsend, hp]
    simp [hne]
  · intro e hp
    rw [hsend, hp]

/-- Witness for C6: credentials set, deploy info present, and an HTTP oracle
answering 500; the notifier issues the single request and logs the failure
text. -/
theorem notifier_single_post_catches_failures_witness :
    (send_telegram_notification sampleCfgWithCreds sampleStoreDeployOnly
      samplePost500).posts = [buildRequest sampleCfgWithCreds
        sampleDeployInfo] ∧
    (buildRequest sampleCfgWithCreds sampleDeployInfo).timeout = 10 ∧
    (send_telegram_notification sampleCfgWithCreds sampleStoreDeployOnly
      samplePost500).logs = ["Ошибка отправки уведомления: boom"] := by
  obtain ⟨h1, h2, h3, _⟩ := notifier_single_post_catches_failures
    sampleCfgWithCreds sampleStoreDeployOnly samplePost500 sampleDeployInfo
    rfl rfl rfl
  exact ⟨h1, h2, h3 500 "boom" rfl (by decide)⟩

/-- C7: the Deployer is the single writer of `deploy_info`.  `deploy_model`
writes `{version, metrics, timestamp}` under that key (and nothing else);
`skip_deploy` writes nothing at all; the Evaluator and Gate tasks leave
`deploy_info` untouched (and the Notifier never writes the store: its type
has no store output); accordingly a skip-branch run ends with no value
under `deploy_info` and a deploy-branch run ends with exactly the
Deployer's record. -/
theorem deploy_info_single_writer :
    (∀ (cfg : Config) (metrics : MetricsDict) (now : String)
      (store : XComStore),
      (deploy_model cfg metrics now store).deploy_info =
        some ⟨cfg.model_version, metrics, now⟩ ∧
      (deploy_model cfg metrics now store).metrics = store.metrics) ∧
    (∀ store : XComStore, skip_deploy store = store) ∧
    (∀ (env : EvalEnv) (store : XComStore),
      (evaluate_model_task env store).deploy_info = store.deploy_info) ∧
    (∀ store : XComStore, (check_metrics_task store).2 = store) ∧
    (∀ (cfg : Config) (env : EvalEnv) (now : String)
      (post : PostRequest → HttpOutcome),
      check_metrics (evaluate_model env) = "skip_deploy" →
      (run_pipeline cfg env now post).store.deploy_info = none) ∧
    (∀ (cfg : Config) (env : EvalEnv) (now : String)
      (post : PostRequest → HttpOutcome),
      check_metrics (evaluate_model env) = "deploy_model" →
      (run_pipeline cfg env now post).store.deploy_info =
        some ⟨cfg.model_version, evaluate_model env, now⟩) := by
  refine ⟨fun _ _ _ _ => ⟨rfl, rfl⟩, fun _ => rfl, fun _ _ => rfl,
    fun _ => rfl, ?_, ?_⟩
  · intro cfg env now post h
    rw [run_pipeline_skip cfg env now post h]
  · intro cfg env now post h
    rw [run_pipeline_deploy cfg env now post h]

/-- Witness for C7 on concrete runs of each branch. -/
theorem deploy_info_single_writer_witness :
    (run_pipeline sampleCfgDefault sampleEnvSkip "2025-01-01T00:00:00"
      samplePostExn).store.deploy_info = none ∧
    (run_pipeline sampleCfgDefault sampleEnvDeploy "2025-01-01T00:00:00"
      samplePostExn).store.deploy_info =
      some ⟨"v1.0.0", evaluate_model sampleEnvDeploy,
        "2025-01-01T00:00:00"⟩ ∧
    skip_deploy sampleStoreEmpty = sampleStoreEmpty :=
  ⟨deploy_info_single_writer.2.2.2.2.1 sampleCfgDefault sampleEnvSkip
      "2025-01-01T00:00:00" samplePostExn check_metrics_sampleEnvSkip,
   deploy_info_single_writer.2.2.2.2.2 sampleCfgDefault sampleEnvDeploy
      "2025-01-01T00:00:00" samplePostExn check_metrics_sampleEnvDeploy,
   deploy_info_single_writer.2.1 sampleStoreEmpty⟩

/-- C8: for raw samples inside the documented uniform-sampling ranges, the
Evaluator (which is total — it always succeeds) publishes the rounded
samples under `accuracy`, `precision` and `recall`; each published value is
again inside its range and is a 4-decimal-digit value; and the task writes
the record to the store under key `metrics`. -/
theorem evaluator_metrics_contract (env : EvalEnv) (store : XComStore)
    (h1 : 0.75 ≤ env.accuracy_raw) (h2 : env.accuracy_raw ≤ 0.95)
    (h3 : 0.70 ≤ env.precision_raw) (h4 : env.precision_raw ≤ 0.92)
    (h5 : 0.72 ≤ env.recall_raw) (h6 : env.recall_raw ≤ 0.94) :
    (evaluate_model_task env store).metrics = some (evaluate_model env) ∧
    dictGet (evaluate_model env) "accuracy" =
      some (round4 env.accuracy_raw) ∧
    dictGet (evaluate_model env) "precision" =
      some (round4 env.precision_raw) ∧
    dictGet (evaluate_model env) "recall" = some (round4 env.recall_raw) ∧
    (0.75 ≤ round4 env.accuracy_raw ∧ round4 env.accuracy_raw ≤ 0.95) ∧
    (0.70 ≤ round4 env.precision_raw ∧ round4 env.precision_raw ≤ 0.92) ∧
    (0.72 ≤ round4 env.recall_raw ∧ round4 env.recall_raw ≤ 0.94) ∧
    isRounded4 (round4 env.accuracy_raw) ∧
    isRounded4 (round4 env.precision_raw) ∧
    isRounded4 (round4 env.recall_raw) := by
  refine ⟨rfl, evaluate_model_accuracy env, evaluate_model_precision env,
    evaluate_model_recall env, ⟨?_, ?_⟩, ⟨?_, ?_⟩, ⟨?_, ?_⟩,
    round4_isRounded4 _, round4_isRounded4 _, round4_isRounded4 _⟩
  · calc (0.75 : ℚ) = round4 0.75 := by norm_num [round4]
      _ ≤ round4 env.accuracy_raw := round4_mono h1
  · calc round4 env.accuracy_raw ≤ round4 0.95 := round4_mono h2
      _ = 0.95 := by norm_num [round4]
  · calc (0.70 : ℚ) = round4 0.70 := by norm_num [round4]
      _ ≤ round4 env.precision_raw := round4_mono h3
  · calc round4 env.precision_raw ≤ round4 0.92 := round4_mono h4
      _ = 0.92 := by norm_num [round4]
  · calc (0.72 : ℚ) = round4 0.72 := by norm_num [round4]
      _ ≤ round4 env.recall_raw := round4_mono h5
  · calc round4 env.recall_raw ≤ round4 0.94 := round4_mono h6
      _ = 0.94 := by norm_num [round4]

/-- Witness for C8 at the concrete samples `(0.92, 0.85, 0.88)`. -/
theorem evaluator_metrics_contract_witness :
    (evaluate_model_task sampleEnvDeploy sampleStoreEmpty).metrics =
      some (evaluate_model sampleEnvDeploy) ∧
    dictGet (evaluate_model sampleEnvDeploy) "accuracy" =
      some (round4 sampleEnvDeploy.accuracy_raw) ∧
    dictGet (evaluate_model sampleEnvDeploy) "precision" =
      some (round4 sampleEnvDeploy.precision_raw) ∧
    dictGet (evaluate_model sampleEnvDeploy) "recall" =
      some (round4 sampleEnvDeploy.recall_raw) ∧
    (0.75 ≤ round4 sampleEnvDeploy.accuracy_raw ∧
      round4 sampleEnvDeploy.accuracy_raw ≤ 0.95) ∧
    (0.70 ≤ round4 sampleEnvDeploy.precision_raw ∧
      round4 sampleEnvDeploy.precision_raw ≤ 0.92) ∧
    (0.72 ≤ round4 sampleEnvDeploy.recall_raw ∧
      round4 sampleEnvDeploy.recall_raw ≤ 0.94) ∧
    isRounded4 (round4 sampleEnvDeploy.accuracy_raw) ∧
    isRounded4 (round4 sampleEnvDeploy.precision_raw) ∧
    isRounded4 (round4 sampleEnvDeploy.recall_raw) :=
  evaluator_metrics_contract sampleEnvDeploy sampleStoreEmpty
    (by norm_num [sampleEnvDeploy]) (by norm_num [sampleEnvDeploy])
    (by norm_num [sampleEnvDeploy]) (by norm_num [sampleEnvDeploy])
    (by norm_num [sampleEnvDeploy]) (by norm_num [sampleEnvDeploy])
